import Mathlib

/-!
# Verification of `ppp_calculator.py`

A shallow embedding of the PPP (purchasing power parity) calculator and
proofs of the specified properties.

The Python source is a single function `calculate_ppp(currency_a,
currency_b, price_data)` over a pandas `DataFrame`.  We model:

* a table cell as `Cell`: missing (NaN/None), a finite numeric value
  (as an exact rational), or a non-numeric value such as a string;
* a `DataFrame` as a list of column names together with rows of cells
  aligned positionally with the columns;
* the dynamically typed currency arguments as `PyVal`;
* float results as `XFloat`: a finite rational, `+inf`, `-inf` or `NaN`,
  with IEEE-754 semantics for the division `Price_A / Price_B` and for
  summation (exact rational arithmetic in the finite range);
* `np.mean` applied to a pandas Series delegates to `Series.mean`, which
  skips NaN entries (`skipna=True`); `xmean` models exactly that.

Errors (`raise ValueError(...)`) are modelled with an explicit outcome
type `PPPOutcome` whose single error constructor `invalidArgument`
carries the message of the `ValueError`.
-/

/-- A cell of the price table: missing (NaN/None), a finite numeric
value, or a non-numeric value (e.g. a string in a numeric column). -/
inductive Cell where
  | missing : Cell
  | num : ℚ → Cell
  | nonnum : Cell
deriving DecidableEq

/-- `pd.isna` on a cell: true exactly for missing values (NaN/None). -/
def Cell.isna : Cell → Bool
  | .missing => true
  | .num _ => false
  | .nonnum => false

/-- `np.isreal` on a cell: true for numeric values and for NaN (NaN is a
real float), false for non-numeric values such as strings. -/
def Cell.isreal : Cell → Bool
  | .missing => true
  | .num _ => true
  | .nonnum => false

/-- Whether the cell holds an actual (present) numeric value. -/
def Cell.isNum : Cell → Bool
  | .num _ => true
  | _ => false

/-- The rational value of a numeric cell (junk value `0` otherwise; only
ever used on cells known to be numeric). -/
def Cell.toRat : Cell → ℚ
  | .num q => q
  | _ => 0

/-- A pandas DataFrame: named columns and rows of cells, each row aligned
positionally with the column names. -/
structure DataFrame where
  cols : List String
  rows : List (List Cell)
deriving DecidableEq

/-- Look up the cell of a row under a named column; absent entries read
as missing. -/
def getCell : List String → List Cell → String → Cell
  | [], _, _ => Cell.missing
  | _ :: _, [], _ => Cell.missing
  | c0 :: cs, x :: xs, c => if c0 = c then x else getCell cs xs c

/-- A dynamically typed Python value passed as a currency argument. -/
inductive PyVal where
  | str : String → PyVal
  | intv : Int → PyVal
  | floatv : ℚ → PyVal
  | pynone : PyVal
deriving DecidableEq

/-- `isinstance(x, str)`. -/
def PyVal.isStr : PyVal → Bool
  | .str _ => true
  | _ => false

/-- A Python float value: finite (exact rational), infinities, or NaN. -/
inductive XFloat where
  | fin : ℚ → XFloat
  | pinf : XFloat
  | ninf : XFloat
  | nan : XFloat
deriving DecidableEq

/-- Finiteness of a float: neither an infinity nor NaN. -/
def XFloat.isFinite : XFloat → Bool
  | .fin _ => true
  | _ => false

/-- NaN test. -/
def XFloat.isNan : XFloat → Bool
  | .nan => true
  | _ => false

/-- IEEE-754 addition on `XFloat` (exact in the finite range). -/
def XFloat.add : XFloat → XFloat → XFloat
  | .nan, _ => .nan
  | _, .nan => .nan
  | .pinf, .ninf => .nan
  | .ninf, .pinf => .nan
  | .pinf, _ => .pinf
  | _, .pinf => .pinf
  | .ninf, _ => .ninf
  | _, .ninf => .ninf
  | .fin a, .fin b => .fin (a + b)

/-- IEEE-754 division of two finite values: `a / 0` is `±inf` for
`a ≠ 0` and NaN for `0 / 0`. -/
def fdiv (a b : ℚ) : XFloat :=
  if b = 0 then
    if a = 0 then .nan else if 0 < a then .pinf else .ninf
  else .fin (a / b)

/-- Sum of a list of floats. -/
def xsum (l : List XFloat) : XFloat :=
  l.foldl XFloat.add (.fin 0)

/-- Division of a float by a count; a count of `0` yields NaN (`0/0`). -/
def xdivNat (x : XFloat) (n : Nat) : XFloat :=
  if n = 0 then .nan
  else
    match x with
    | .fin q => .fin (q / (n : ℚ))
    | .pinf => .pinf
    | .ninf => .ninf
    | .nan => .nan

/-- `np.mean` on a pandas Series: pandas `Series.mean` skips NaN entries
(`skipna=True`) and averages the rest; all-NaN input yields NaN. -/
def xmean (l : List XFloat) : XFloat :=
  xdivNat (xsum (l.filter (fun x => !x.isNan))) (l.filter (fun x => !x.isNan)).length

/-- The predicate of `dropna(subset=['Price_A', 'Price_B'])`: the row is
kept when neither price cell is missing. -/
def dropnaRow (cols : List String) (r : List Cell) : Bool :=
  !(getCell cols r "Price_A").isna && !(getCell cols r "Price_B").isna

/-- The predicate of the `np.isreal` filter on both price columns. -/
def isrealRow (cols : List String) (r : List Cell) : Bool :=
  (getCell cols r "Price_A").isreal && (getCell cols r "Price_B").isreal

/-- The rows surviving the two filtering steps of the source (`dropna`
followed by the `np.isreal` mask). -/
def survivors (df : DataFrame) : List (List Cell) :=
  (df.rows.filter (dropnaRow df.cols)).filter (isrealRow df.cols)

/-- A valid row in the sense of the spec: both price fields are present
and numeric. -/
def validRow (cols : List String) (r : List Cell) : Bool :=
  (getCell cols r "Price_A").isNum && (getCell cols r "Price_B").isNum

/-- The per-row price ratio `Price_A / Price_B` (IEEE division). -/
def ratioRow (cols : List String) (r : List Cell) : XFloat :=
  fdiv (getCell cols r "Price_A").toRat (getCell cols r "Price_B").toRat

/-- The outcome of a call to `calculate_ppp`: a returned float, or a
raised `ValueError` (the spec's single error kind `InvalidArgument`)
carrying its message. -/
inductive PPPOutcome where
  | ok : XFloat → PPPOutcome
  | invalidArgument : String → PPPOutcome
deriving DecidableEq

/-- Whether the call returned normally. -/
def PPPOutcome.isOk : PPPOutcome → Bool
  | .ok _ => true
  | .invalidArgument _ => false

/-- Error message of the currency-type check. -/
def currencyErrMsg : String := "Currency codes must be strings."

/-- Error message of the column-presence check. -/
def columnsErrMsg : String := "DataFrame must contain Price_A and Price_B columns."

/-- Error message of the empty-after-filtering check. -/
def noDataErrMsg : String := "DataFrame must contain valid numeric price data."

/-- The embedding of `calculate_ppp` from `ppp_calculator.py`:
validate the currency arguments, validate column presence, drop rows
with missing or non-numeric prices, fail if nothing remains, otherwise
return the mean of the per-row price ratios. -/
def calculate_ppp (currency_a currency_b : PyVal) (price_data : DataFrame) :
    PPPOutcome :=
  if !currency_a.isStr || !currency_b.isStr then
    .invalidArgument currencyErrMsg
  else if "Price_A" ∉ price_data.cols ∨ "Price_B" ∉ price_data.cols then
    .invalidArgument columnsErrMsg
  else if (survivors price_data).isEmpty then
    .invalidArgument noDataErrMsg
  else
    .ok (xmean ((survivors price_data).map (ratioRow price_data.cols)))

/-- The mean of ratios as the spec words it: the sum of the ratios of
the valid rows, divided by the number of valid rows (no NaN skipping). -/
def specMeanOfRatios (df : DataFrame) : XFloat :=
  xdivNat (xsum ((df.rows.filter (validRow df.cols)).map (ratioRow df.cols)))
    ((df.rows.filter (validRow df.cols)).length)

/-! ## Concrete tables used by witnesses and counterexamples -/

/-- The example table of the source: three items, ratios all `10`. -/
def dfExample : DataFrame :=
  ⟨["Goods_Services", "Price_A", "Price_B"],
    [[Cell.nonnum, Cell.num 100, Cell.num 10],
     [Cell.nonnum, Cell.num 200, Cell.num 20],
     [Cell.nonnum, Cell.num 150, Cell.num 15]]⟩

/-- A table whose single valid row has a zero `Price_B`. -/
def dfZeroDenom : DataFrame :=
  ⟨["Price_A", "Price_B"], [[Cell.num 100, Cell.num 0]]⟩

/-- A table with one ordinary valid row and one valid row `0 / 0`
(whose ratio is NaN). -/
def dfNanRatio : DataFrame :=
  ⟨["Price_A", "Price_B"],
    [[Cell.num 100, Cell.num 10], [Cell.num 0, Cell.num 0]]⟩

/-- An empty table with the correct columns. -/
def dfEmpty : DataFrame := ⟨["Goods_Services", "Price_A", "Price_B"], []⟩

/-- A table lacking the `Price_A` column. -/
def dfNoColA : DataFrame := ⟨["Price_B"], []⟩

/-! ## Helper lemmas -/

theorem getCell_of_not_mem (cols : List String) (r : List Cell) (c : String)
    (h : c ∉ cols) : getCell cols r c = Cell.missing := by
  induction cols generalizing r with
  | nil => cases r <;> rfl
  | cons c0 cs ih =>
    rw [List.mem_cons, not_or] at h
    cases r with
    | nil => rfl
    | cons x xs =>
      show (if c0 = c then x else getCell cs xs c) = Cell.missing
      rw [if_neg (fun hc => h.1 hc.symm)]
      exact ih xs h.2

theorem mem_cols_of_validRow {cols : List String} {r : List Cell}
    (h : validRow cols r = true) :
    "Price_A" ∈ cols ∧ "Price_B" ∈ cols := by
  constructor
  · by_contra hA
    rw [validRow, getCell_of_not_mem cols r "Price_A" hA] at h
    simp [Cell.isNum] at h
  · by_contra hB
    rw [validRow, getCell_of_not_mem cols r "Price_B" hB] at h
    simp [Cell.isNum] at h

theorem cell_filter_eq_isNum (x : Cell) : (!x.isna && x.isreal) = x.isNum := by
  cases x <;> rfl

theorem survivors_eq_filter_validRow (df : DataFrame) :
    survivors df = df.rows.filter (validRow df.cols) := by
  rw [survivors, List.filter_filter]
  refine List.filter_congr fun r _ => ?_
  rw [dropnaRow, isrealRow, validRow]
  cases hA : getCell df.cols r "Price_A" <;> cases hB : getCell df.cols r "Price_B" <;> rfl

theorem calculate_ppp_nonstring {currency_a currency_b : PyVal} {df : DataFrame}
    (h : currency_a.isStr = false ∨ currency_b.isStr = false) :
    calculate_ppp currency_a currency_b df = .invalidArgument currencyErrMsg := by
  rcases h with h | h <;> simp [calculate_ppp, h]

theorem calculate_ppp_missing_col {currency_a currency_b : PyVal} {df : DataFrame}
    (hca : currency_a.isStr = true) (hcb : currency_b.isStr = true)
    (h : "Price_A" ∉ df.cols ∨ "Price_B" ∉ df.cols) :
    calculate_ppp currency_a currency_b df = .invalidArgument columnsErrMsg := by
  unfold calculate_ppp
  rw [if_neg (by rw [hca, hcb]; simp), if_pos h]

theorem calculate_ppp_no_valid_rows {currency_a currency_b : PyVal} {df : DataFrame}
    (hca : currency_a.isStr = true) (hcb : currency_b.isStr = true)
    (hA : "Price_A" ∈ df.cols) (hB : "Price_B" ∈ df.cols)
    (h : df.rows.filter (validRow df.cols) = []) :
    calculate_ppp currency_a currency_b df = .invalidArgument noDataErrMsg := by
  have hs : survivors df = [] := by rw [survivors_eq_filter_validRow, h]
  unfold calculate_ppp
  rw [if_neg (by rw [hca, hcb]; simp), if_neg (by rw [not_or, not_not, not_not]; exact ⟨hA, hB⟩),
    if_pos (by rw [hs]; rfl)]

theorem calculate_ppp_ok_eval {currency_a currency_b : PyVal} {df : DataFrame}
    (hca : currency_a.isStr = true) (hcb : currency_b.isStr = true)
    (hne : df.rows.filter (validRow df.cols) ≠ []) :
    calculate_ppp currency_a currency_b df =
      .ok (xmean ((df.rows.filter (validRow df.cols)).map (ratioRow df.cols))) := by
  obtain ⟨r, hr⟩ := List.exists_mem_of_ne_nil _ hne
  obtain ⟨hA, hB⟩ := mem_cols_of_validRow (List.of_mem_filter hr)
  have hs : survivors df = df.rows.filter (validRow df.cols) :=
    survivors_eq_filter_validRow df
  have hemp : (survivors df).isEmpty = false := by
    rw [List.isEmpty_eq_false, hs]; exact hne
  unfold calculate_ppp
  rw [if_neg (by rw [hca, hcb]; simp), if_neg (by rw [not_or, not_not, not_not]; exact ⟨hA, hB⟩),
    if_neg (by rw [hemp]; simp), hs]

theorem xsum_fin_of_all_fin (l : List XFloat) (h : ∀ x ∈ l, ∃ q : ℚ, x = .fin q) :
    ∃ q : ℚ, xsum l = .fin q := by
  rw [xsum]
  suffices hgen : ∀ (l : List XFloat) (q0 : ℚ), (∀ x ∈ l, ∃ q : ℚ, x = .fin q) →
      ∃ q : ℚ, l.foldl XFloat.add (.fin q0) = .fin q from hgen l 0 h
  intro l
  induction l with
  | nil => exact fun q0 _ => ⟨q0, rfl⟩
  | cons x xs ih =>
    intro q0 hx
    obtain ⟨qx, hqx⟩ := hx x (List.mem_cons_self x xs)
    rw [List.foldl_cons, hqx]
    exact ih (q0 + qx) fun y hy => hx y (List.mem_cons_of_mem x hy)

theorem xmean_fin_of_all_fin (l : List XFloat) (hne : l ≠ [])
    (h : ∀ x ∈ l, ∃ q : ℚ, x = .fin q) : ∃ q : ℚ, xmean l = .fin q := by
  have hfil : l.filter (fun x => !x.isNan) = l := by
    rw [List.filter_eq_self]
    intro x hx
    obtain ⟨q, hq⟩ := h x hx
    rw [hq]; rfl
  rw [xmean, hfil]
  obtain ⟨s, hsum⟩ := xsum_fin_of_all_fin l h
  have hlen : l.length ≠ 0 := fun hc => hne (List.eq_nil_of_length_eq_zero hc)
  rw [hsum, xdivNat, if_neg hlen]
  exact ⟨s / (l.length : ℚ), rfl⟩

theorem ratioRow_fin_of_nonzero {cols : List String} {r : List Cell}
    (hb : (getCell cols r "Price_B").toRat ≠ 0) :
    ∃ q : ℚ, ratioRow cols r = .fin q := by
  rw [ratioRow, fdiv, if_neg hb]
  exact ⟨_, rfl⟩

/-! ## The claims -/

/-- C1 (counterexample): the table `dfNanRatio` has two valid rows
`(100, 10)` and `(0, 0)`; the spec formula — the sum of the two ratios
divided by two — is NaN (the second ratio is `0/0`), but the code
returns `10`, because pandas' `mean` skips NaN entries.  So the result
is not always the sum of the valid ratios divided by their count. -/
theorem ppp_c1_counterexample :
    calculate_ppp (PyVal.str "USD") (PyVal.str "EUR") dfNanRatio =
        PPPOutcome.ok (XFloat.fin 10) ∧
      specMeanOfRatios dfNanRatio = XFloat.nan ∧
      (dfNanRatio.rows.filter (validRow dfNanRatio.cols)).length = 2 ∧
      (XFloat.fin 10).isNan = false ∧ XFloat.nan.isNan = true := by
  refine ⟨?_, by decide, by decide, rfl, rfl⟩
  simp [dfNanRatio, calculate_ppp, survivors, dropnaRow, isrealRow, getCell, ratioRow, fdiv,
    xmean, xsum, xdivNat, Cell.isna, Cell.isreal, Cell.toRat, PyVal.isStr, XFloat.add,
    XFloat.isNan]
  norm_num

/-- C1 (amended): for valid string currencies and a table with at least
one valid numeric row, provided no valid row's ratio is NaN (i.e. no
valid row has both prices zero), `calculate_ppp` returns the sum of the
per-row ratios of exactly the valid rows divided by their count. -/
theorem ppp_c1_mean_of_ratios {currency_a currency_b : PyVal} {df : DataFrame}
    (hca : currency_a.isStr = true) (hcb : currency_b.isStr = true)
    (hne : df.rows.filter (validRow df.cols) ≠ [])
    (hnan : ∀ r ∈ df.rows, validRow df.cols r = true → (ratioRow df.cols r).isNan = false) :
    calculate_ppp currency_a currency_b df = .ok (specMeanOfRatios df) := by
  rw [calculate_ppp_ok_eval hca hcb hne, specMeanOfRatios, xmean]
  have hfil : ((df.rows.filter (validRow df.cols)).map (ratioRow df.cols)).filter
      (fun x => !x.isNan) = (df.rows.filter (validRow df.cols)).map (ratioRow df.cols) := by
    rw [List.filter_eq_self]
    intro x hx
    obtain ⟨r, hrmem, hrx⟩ := List.mem_map.mp hx
    obtain ⟨hrin, hrval⟩ := List.mem_filter.mp hrmem
    rw [← hrx, hnan r hrin hrval]
    rfl
  rw [hfil, List.length_map]

/-- C1 witness: on the source's example table the result is the mean of
the three ratios. -/
theorem ppp_c1_mean_of_ratios_witness :
    calculate_ppp (PyVal.str "USD") (PyVal.str "EUR") dfExample =
      PPPOutcome.ok (specMeanOfRatios dfExample) :=
  ppp_c1_mean_of_ratios rfl rfl (by decide) (by decide)

/-- C2 (counterexample): the table `dfZeroDenom` passes every
validation step (string currencies, both columns, one valid numeric
row), yet the result is `+inf` — not a finite float — because the
single valid row has `Price_B = 0`. -/
theorem ppp_c2_counterexample :
    calculate_ppp (PyVal.str "USD") (PyVal.str "EUR") dfZeroDenom =
        PPPOutcome.ok XFloat.pinf ∧
      XFloat.pinf.isFinite = false ∧
      (dfZeroDenom.rows.filter (validRow dfZeroDenom.cols)).length = 1 := by
  exact ⟨by decide, rfl, by decide⟩

/-- C2 (amended): for every input passing validation in which,
additionally, every valid row has a nonzero `Price_B`, the returned
value is a finite float. -/
theorem ppp_c2_finite_result {currency_a currency_b : PyVal} {df : DataFrame}
    (hca : currency_a.isStr = true) (hcb : currency_b.isStr = true)
    (hne : df.rows.filter (validRow df.cols) ≠ [])
    (hb : ∀ r ∈ df.rows, validRow df.cols r = true →
      (getCell df.cols r "Price_B").toRat ≠ 0) :
    ∃ q : ℚ, calculate_ppp currency_a currency_b df = .ok (.fin q) := by
  rw [calculate_ppp_ok_eval hca hcb hne]
  have hlne : (df.rows.filter (validRow df.cols)).map (ratioRow df.cols) ≠ [] := by
    cases h' : df.rows.filter (validRow df.cols) with
    | nil => exact absurd h' hne
    | cons a t => simp [h']
  have hall : ∀ x ∈ (df.rows.filter (validRow df.cols)).map (ratioRow df.cols),
      ∃ q : ℚ, x = .fin q := by
    intro x hx
    obtain ⟨r, hrmem, hrx⟩ := List.mem_map.mp hx
    obtain ⟨hrin, hrval⟩ := List.mem_filter.mp hrmem
    obtain ⟨q, hq⟩ := ratioRow_fin_of_nonzero (hb r hrin hrval)
    exact ⟨q, by rw [← hrx, hq]⟩
  obtain ⟨q, hq⟩ := xmean_fin_of_all_fin _ hlne hall
  exact ⟨q, by rw [hq]⟩

/-- C2 witness: on the source's example table (all denominators
nonzero) the result is a finite float. -/
theorem ppp_c2_finite_result_witness :
    ∃ q : ℚ, calculate_ppp (PyVal.str "USD") (PyVal.str "EUR") dfExample =
      PPPOutcome.ok (XFloat.fin q) :=
  ppp_c2_finite_result rfl rfl (by decide) (by decide)

/-- C3: for a fixed table, any two pairs of string currency identifiers
produce the same result — the currency arguments never influence the
computed value. -/
theorem ppp_c3_currency_independence (ca cb ca2 cb2 : PyVal) (df : DataFrame)
    (h1 : ca.isStr = true) (h2 : cb.isStr = true)
    (h3 : ca2.isStr = true) (h4 : cb2.isStr = true) :
    calculate_ppp ca cb df = calculate_ppp ca2 cb2 df := by
  unfold calculate_ppp
  rw [h1, h2, h3, h4]

/-- C3 witness: swapping `USD`/`EUR` for `INR`/`JPY` leaves the result
on the example table unchanged. -/
theorem ppp_c3_currency_independence_witness :
    calculate_ppp (PyVal.str "USD") (PyVal.str "EUR") dfExample =
      calculate_ppp (PyVal.str "INR") (PyVal.str "JPY") dfExample :=
  ppp_c3_currency_independence _ _ _ _ dfExample rfl rfl rfl rfl

/-- C4: the rows surviving the two filtering steps are exactly the rows
whose two price cells are both present and numeric, and prepending an
invalid row to a table never changes the result of `calculate_ppp`. -/
theorem ppp_c4_row_filter (df : DataFrame) (ca cb : PyVal) (r : List Cell) :
    survivors df = df.rows.filter (validRow df.cols) ∧
      (validRow df.cols r = false →
        calculate_ppp ca cb ⟨df.cols, r :: df.rows⟩ = calculate_ppp ca cb df) := by
  refine ⟨survivors_eq_filter_validRow df, fun hr => ?_⟩
  have hsurv : survivors ⟨df.cols, r :: df.rows⟩ = survivors df := by
    rw [survivors_eq_filter_validRow, survivors_eq_filter_validRow]
    show (r :: df.rows).filter (validRow df.cols) = df.rows.filter (validRow df.cols)
    rw [List.filter_cons_of_neg (by rw [hr]; exact Bool.false_ne_true)]
  unfold calculate_ppp
  rw [hsurv]

/-- C4 witness: prepending a row with a non-numeric `Price_A` and a
missing `Price_B` to the example table leaves the result unchanged. -/
theorem ppp_c4_row_filter_witness :
    calculate_ppp (PyVal.str "USD") (PyVal.str "EUR")
        ⟨dfExample.cols, [Cell.nonnum, Cell.nonnum, Cell.missing] :: dfExample.rows⟩ =
      calculate_ppp (PyVal.str "USD") (PyVal.str "EUR") dfExample :=
  (ppp_c4_row_filter dfExample _ _ _).2 (by decide)

/-- C5: a non-string currency identifier always yields the
`InvalidArgument` error of the currency-type check, for any table. -/
theorem ppp_c5_nonstring_currency {ca cb : PyVal} {df : DataFrame}
    (h : ca.isStr = false ∨ cb.isStr = false) :
    calculate_ppp ca cb df = .invalidArgument currencyErrMsg :=
  calculate_ppp_nonstring h

/-- C5 witness: an integer first argument fails with the currency
error. -/
theorem ppp_c5_nonstring_currency_witness :
    calculate_ppp (PyVal.intv 3) (PyVal.str "EUR") dfExample =
      PPPOutcome.invalidArgument currencyErrMsg :=
  ppp_c5_nonstring_currency (Or.inl rfl)

/-- C6: with string currencies, a table lacking `Price_A` or `Price_B`
always yields the `InvalidArgument` error of the column check. -/
theorem ppp_c6_missing_column {ca cb : PyVal} {df : DataFrame}
    (hca : ca.isStr = true) (hcb : cb.isStr = true)
    (h : "Price_A" ∉ df.cols ∨ "Price_B" ∉ df.cols) :
    calculate_ppp ca cb df = .invalidArgument columnsErrMsg :=
  calculate_ppp_missing_col hca hcb h

/-- C6 witness: a table with only a `Price_B` column fails with the
column error. -/
theorem ppp_c6_missing_column_witness :
    calculate_ppp (PyVal.str "USD") (PyVal.str "EUR") dfNoColA =
      PPPOutcome.invalidArgument columnsErrMsg :=
  ppp_c6_missing_column rfl rfl (Or.inl (by decide))

/-- C7: with string currencies and both price columns present, a table
in which no row is valid — in particular an empty table — yields the
`InvalidArgument` error of the no-data check. -/
theorem ppp_c7_no_valid_rows {ca cb : PyVal} {df : DataFrame}
    (hca : ca.isStr = true) (hcb : cb.isStr = true)
    (hA : "Price_A" ∈ df.cols) (hB : "Price_B" ∈ df.cols)
    (h : df.rows.filter (validRow df.cols) = []) :
    calculate_ppp ca cb df = .invalidArgument noDataErrMsg :=
  calculate_ppp_no_valid_rows hca hcb hA hB h

/-- C7 witness: the empty table with the correct columns fails with the
no-data error. -/
theorem ppp_c7_no_valid_rows_witness :
    calculate_ppp (PyVal.str "USD") (PyVal.str "EUR") dfEmpty =
      PPPOutcome.invalidArgument noDataErrMsg :=
  ppp_c7_no_valid_rows rfl rfl (by decide) (by decide) rfl

/-- C8: every failure of `calculate_ppp` carries one of the three
`InvalidArgument` messages, and the call succeeds exactly when both
currencies are strings, both price columns are present, and at least
one row is valid. -/
theorem ppp_c8_error_characterisation (ca cb : PyVal) (df : DataFrame) :
    (∀ e, calculate_ppp ca cb df = .invalidArgument e →
        e = currencyErrMsg ∨ e = columnsErrMsg ∨ e = noDataErrMsg) ∧
      ((calculate_ppp ca cb df).isOk = true ↔
        ca.isStr = true ∧ cb.isStr = true ∧ "Price_A" ∈ df.cols ∧ "Price_B" ∈ df.cols ∧
          df.rows.filter (validRow df.cols) ≠ []) := by
  by_cases h1 : ca.isStr = true ∧ cb.isStr = true
  · obtain ⟨hca, hcb⟩ := h1
    by_cases h2 : "Price_A" ∈ df.cols ∧ "Price_B" ∈ df.cols
    · obtain ⟨hA, hB⟩ := h2
      by_cases h3 : df.rows.filter (validRow df.cols) = []
      · have he := calculate_ppp_no_valid_rows hca hcb hA hB h3
        refine ⟨fun e hee => ?_, ?_⟩
        · rw [he] at hee
          injection hee with h
          exact Or.inr (Or.inr h.symm)
        · rw [he]
          simp only [PPPOutcome.isOk]
          constructor
          · intro hc; exact absurd hc Bool.false_ne_true
          · rintro ⟨_, _, _, _, hc⟩; exact absurd h3 hc
      · have he := calculate_ppp_ok_eval hca hcb h3
        refine ⟨fun e hee => ?_, ?_⟩
        · rw [he] at hee
          exact PPPOutcome.noConfusion hee
        · rw [he]
          exact ⟨fun _ => ⟨hca, hcb, hA, hB, h3⟩, fun _ => rfl⟩
    · have h2' : "Price_A" ∉ df.cols ∨ "Price_B" ∉ df.cols := not_and_or.mp h2
      have he := calculate_ppp_missing_col hca hcb h2'
      refine ⟨fun e hee => ?_, ?_⟩
      · rw [he] at hee
        injection hee with h
        exact Or.inr (Or.inl h.symm)
      · rw [he]
        simp only [PPPOutcome.isOk]
        constructor
        · intro hc; exact absurd hc Bool.false_ne_true
        · rintro ⟨_, _, hA, hB, _⟩
          rcases h2' with hc | hc
          · exact absurd hA hc
          · exact absurd hB hc
  · have h1' : ca.isStr = false ∨ cb.isStr = false := by
      rcases not_and_or.mp h1 with hc | hc
      · exact Or.inl (Bool.eq_false_iff.mpr hc)
      · exact Or.inr (Bool.eq_false_iff.mpr hc)
    have he := @calculate_ppp_nonstring ca cb df h1'
    refine ⟨fun e hee => ?_, ?_⟩
    · rw [he] at hee
      injection hee with h
      exact Or.inl h.symm
    · rw [he]
      simp only [PPPOutcome.isOk]
      constructor
      · intro hc; exact absurd hc Bool.false_ne_true
      · rintro ⟨hca, hcb, _, _, _⟩
        rcases h1' with hc | hc
        · rw [hca] at hc; exact Bool.noConfusion hc
        · rw [hcb] at hc; exact Bool.noConfusion hc

/-- C8 witness: the example call succeeds. -/
theorem ppp_c8_error_characterisation_witness :
    (calculate_ppp (PyVal.str "USD") (PyVal.str "EUR") dfExample).isOk = true :=
  (ppp_c8_error_characterisation _ _ _).2.mpr
    ⟨rfl, rfl, by decide, by decide, by decide⟩

/-- C10: the validation checks are ordered: a non-string currency wins
over a missing column, and a missing column wins over the emptiness
check. -/
theorem ppp_c10_validation_order (ca cb : PyVal) (df : DataFrame) :
    ((ca.isStr = false ∨ cb.isStr = false) ∧
        ("Price_A" ∉ df.cols ∨ "Price_B" ∉ df.cols) →
      calculate_ppp ca cb df = .invalidArgument currencyErrMsg) ∧
      (ca.isStr = true ∧ cb.isStr = true ∧
          ("Price_A" ∉ df.cols ∨ "Price_B" ∉ df.cols) ∧
          df.rows.filter (validRow df.cols) = [] →
        calculate_ppp ca cb df = .invalidArgument columnsErrMsg) :=
  ⟨fun h => calculate_ppp_nonstring h.1,
   fun h => calculate_ppp_missing_col h.1 h.2.1 h.2.2.1⟩

/-- C10 witness: on a table lacking `Price_A`, a non-string currency
reports the currency error while string currencies report the column
error. -/
theorem ppp_c10_validation_order_witness :
    calculate_ppp (PyVal.intv 0) (PyVal.str "EUR") dfNoColA =
        PPPOutcome.invalidArgument currencyErrMsg ∧
      calculate_ppp (PyVal.str "USD") (PyVal.str "EUR") dfNoColA =
        PPPOutcome.invalidArgument columnsErrMsg :=
  ⟨(ppp_c10_validation_order _ _ _).1 ⟨Or.inl rfl, Or.inl (by decide)⟩,
   (ppp_c10_validation_order _ _ _).2 ⟨rfl, rfl, Or.inl (by decide), rfl⟩⟩
